import Mathlib

/-!
Verification of the case-assignment core of the `nyu_rotator_cuff_gear_suite`
repository (gears `assign_single_case`, `assign_batch_cases`, `assign_readers`).

The Python sources are shallowly embedded below.  Remote-store objects
(sessions, reader projects) become plain records; the pandas dataframe
`dest_projects_df` becomes a list of `Worker` rows; `np.random.choice(_, k,
replace=False)` becomes an abstract chooser function constrained by
`IsChoice` (the set of outcomes sampling-without-replacement can produce);
remote `update_info` / `delete_info` calls become explicit state fields.
Python exceptions are modelled by an error latch (`err : Option PyErr`);
once the latch is set no further effect happens, mirroring an exception
aborting the surrounding loops while earlier remote writes stay applied
(the code performs no rollback).
-/

/-- Python `str` value together with its object identity: `pyIs` models the
`is` operator (object identity), while value equality models `==`. -/
structure PyStr where
  oid : Nat
  val : String
deriving DecidableEq, Repr

/-- The Python `is` operator on two strings: identity of objects, not
equality of the character data. -/
def pyIs (a b : PyStr) : Prop := a.oid = b.oid

instance (a b : PyStr) : Decidable (pyIs a b) :=
  inferInstanceAs (Decidable (a.oid = b.oid))

/-- One element of `session_features["assignments"]` as built by the gears:
`{project_id, reader_id, session_id, status}` plus the transient review
payloads `read` and `measurements` attached by the review process. -/
structure Assignment where
  project_id : Nat
  reader_id : String
  session_id : Nat
  status : String
  read : Option String
  measurements : Option String
deriving DecidableEq, Repr

/-- The `session_features` block stored on a source session:
`{case_coverage, assignments, assigned_count}`. -/
structure SessionFeatures where
  case_coverage : Nat
  assignments : List Assignment
  assigned_count : Nat
deriving DecidableEq, Repr

/-- A source session: id, label, the parent group identifier (a Python
string, compared by identity in the batch gear), and its optional
`session_features` metadata block. -/
structure Session where
  id : Nat
  label : String
  group : PyStr
  features : Option SessionFeatures
deriving DecidableEq, Repr

/-- One row of the `dest_projects_df` dataframe built by
`initialize_dataframes` in both gears: `id, label, reader_id, assignments,
max_cases, num_assignments`.  The `assignments` column holds
`{source_session, dest_session}` pairs. -/
structure Worker where
  id : Nat
  label : String
  reader_id : String
  assignments : List (Nat × Nat)
  max_cases : Nat
  num_assignments : Nat
deriving DecidableEq, Repr

/-- A reader project as seen through the Flywheel client: its container id,
the single reader identity holding a contributor role on it, and the labels
of the sessions it currently contains. -/
structure ReaderProject where
  id : Nat
  reader_id : String
  session_labels : List String
deriving DecidableEq, Repr

/-- Python exceptions that the embedded code can raise. -/
inductive PyErr where
  | NameError
  | AttributeError
  | KeyError
  | IndexError
  | TypeError
  | ExceptionMsg (msg : String)
deriving DecidableEq, Repr

/-- Embeds `set_session_features` of `assign_batch_cases/utils/manage_cases.py`
(lines 118-138): return the stored `session_features` or the default block
`{case_coverage, assignments: [], assigned_count: 0}`.  The batch variant
does not delete the block from the session. -/
def set_session_features_b (info : Option SessionFeatures) (case_coverage : Nat) :
    SessionFeatures :=
  match info with
  | some sf => sf
  | none => ⟨case_coverage, [], 0⟩

/-- Embeds `set_session_features` of `assign_single_case/utils/manage_cases.py`
(lines 78-102): same defaulting as the batch variant, but the block is
removed from the source session ("removes from source, restore later").
Returns the features together with the session's info after the
`delete_info` call. -/
def set_session_features (info : Option SessionFeatures) (case_coverage : Nat) :
    SessionFeatures × Option SessionFeatures :=
  (set_session_features_b info case_coverage, none)

/-- The dictionary produced by `set_project_session_attributes` (identical in
both gears): id, label, case_coverage, unassigned, assigned, diagnosed,
measured, completed. -/
structure SessionAttributes where
  id : Nat
  label : String
  case_coverage : Nat
  unassigned : Int
  assigned : Nat
  diagnosed : Nat
  measured : Nat
  completed : Nat
deriving DecidableEq, Repr

/-- Embeds `set_project_session_attributes`, which appears identically in
`assign_single_case/utils/manage_cases.py` (lines 105-146) and
`assign_batch_cases/utils/manage_cases.py` (lines 141-182).  The Python code
reads the `id` and `label` keys that the callers inject into the
`session_features` dict; they are passed here as separate arguments.  Note
that the `assigned` field is `len(session_features["assignments"])`, while
`diagnosed`/`measured`/`completed` are status-filtered counts. -/
def set_project_session_attributes (id : Nat) (label : String)
    (sf : SessionFeatures) : SessionAttributes :=
  { id := id
    label := label
    case_coverage := sf.case_coverage
    unassigned := (sf.case_coverage : Int) - sf.assignments.length
    assigned := sf.assignments.length
    diagnosed :=
      ((sf.assignments.filter (fun a => decide (a.status = "Diagnosed"))).map
        (fun a => a.status)).length
    measured :=
      ((sf.assignments.filter (fun a => decide (a.status = "Measured"))).map
        (fun a => a.status)).length
    completed :=
      ((sf.assignments.filter (fun a => decide (a.status = "Completed"))).map
        (fun a => a.status)).length }

/-- The quantity `avail_case_coverage = case_coverage - len(assignments)`
computed at the top of `select_readers_without_replacement`
(`assign_single_case/utils/manage_cases.py` lines 546-548). -/
def availCaseCoverage (sf : SessionFeatures) : Int :=
  (sf.case_coverage : Int) - sf.assignments.length

/-- The list `readers_proj_assigned` of project ids already holding an
assignment for this case (`assign_single_case/utils/manage_cases.py`
lines 551-553). -/
def readersProjAssigned (sf : SessionFeatures) : List Nat :=
  sf.assignments.map (fun a => a.project_id)

/-- The value `np.min(dest_projects_df.num_assignments)` used in the phase-1
filter (`assign_single_case/utils/manage_cases.py` line 556): the minimum is
taken over the whole worker table, not just over eligible workers.  `np.min`
of an empty table would raise; the gears only reach this point with a
non-empty table (`NoReaderProjectsError` otherwise), so the empty case is
given the junk value 0. -/
def globalMinAssignments (df : List Worker) : Nat :=
  ((df.map (fun w => w.num_assignments)).min?).getD 0

/-- The phase-1 candidate dataframe `df_temp`
(`assign_single_case/utils/manage_cases.py` lines 555-559): workers whose
`num_assignments` equals the table-wide minimum, that are under capacity,
and that do not already hold this case. -/
def phase1Pool (sf : SessionFeatures) (df : List Worker) : List Worker :=
  df.filter (fun w =>
    decide (w.num_assignments = globalMinAssignments df)
    && decide (w.num_assignments < w.max_cases)
    && !(decide (w.id ∈ readersProjAssigned sf)))

/-- Possible outcomes of `np.random.choice(l, n, replace=False)`: a list of
`min n l.length` entries drawn from distinct positions of `l`, i.e. a
permutation of a sublist of `l`. -/
def IsChoice (l : List Nat) (n : Nat) (r : List Nat) : Prop :=
  r.length = min n l.length ∧ ∃ s : List Nat, s.Sublist l ∧ r.Perm s

/-- A chooser function whose every application is a valid
sampling-without-replacement outcome. -/
def ValidChooser (choose : List Nat → Nat → List Nat) : Prop :=
  ∀ l n, IsChoice l n (choose l n)

/-- A deterministic chooser: take the first `n` entries. -/
def chooseFirst (l : List Nat) (n : Nat) : List Nat := l.take n

/-- A deterministic chooser: take the last `n` entries (reversed). -/
def chooseLast (l : List Nat) (n : Nat) : List Nat := l.reverse.take n

/-- The phase-2 candidate dataframe `df_temp` of the second draw
(`assign_single_case/utils/manage_cases.py` lines 571-574): every
under-capacity worker not among `readers_proj_assigned + assign_reader_projs`
(the phase-1 selection). -/
def phase2Pool (sf : SessionFeatures) (df : List Worker) (assign1 : List Nat) :
    List Worker :=
  df.filter (fun w =>
    !(decide (w.id ∈ readersProjAssigned sf ++ assign1))
    && decide (w.num_assignments < w.max_cases))

/-- Embeds `select_readers_without_replacement`
(`assign_single_case/utils/manage_cases.py` lines 529-586).  The two
`np.random.choice` draws are replaced by the abstract `choose` parameter.
Phase 1 draws `min(avail, |pool1|)` workers from the phase-1 pool; if the
pool was smaller than `avail`, phase 2 widens to every under-capacity worker
not already assigned this case and not drawn in phase 1, and draws
`min(avail - |pool1|, |pool2|)` more. -/
def select_readers_without_replacement (choose : List Nat → Nat → List Nat)
    (sf : SessionFeatures) (df : List Worker) : List Nat :=
  let avail : Int := availCaseCoverage sf
  let pool1 := phase1Pool sf df
  let assign1 := choose (pool1.map (fun w => w.id))
    (min avail (pool1.length : Int)).toNat
  if (pool1.length : Int) < avail then
    let pool2 := phase2Pool sf df assign1
    assign1 ++ choose (pool2.map (fun w => w.id))
      (min (avail - (pool1.length : Int)) (pool2.length : Int)).toNat
  else
    assign1

/-- Specification-side notion used to state the Allocator claims: a worker is
eligible for a case when it does not already hold an assignment for the case
and is under capacity. -/
def eligibleWorkers (sf : SessionFeatures) (df : List Worker) : List Worker :=
  df.filter (fun w =>
    !(decide (w.id ∈ readersProjAssigned sf))
    && decide (w.num_assignments < w.max_cases))

/-- Specification-side pool described by the spec's phase-1 sentence: the
eligible workers whose `num_assignments` equals the minimum
`num_assignments` among all *eligible* workers. -/
def eligibleMinPool (sf : SessionFeatures) (df : List Worker) : List Worker :=
  (eligibleWorkers sf df).filter (fun w =>
    decide (w.num_assignments
      = (((eligibleWorkers sf df).map (fun w => w.num_assignments)).min?).getD 0))

/-- Replace the first element satisfying `p` with `f` of it, leaving the rest
unchanged; models in-place mutation of the single dict selected by
`[a for a in assignments if a["reader_id"] == reader_id][0]`. -/
def updateFirst (p : α → Bool) (f : α → α) : List α → List α
  | [] => []
  | a :: as => if p a then f a :: as else a :: updateFirst p f as

/-- Resets an assignment the way the reassignment branch of
`assign_single_case` does (lines 698-703): status back to `"Assigned"`, the
`read` and `measurements` payloads popped. -/
def resetAssignmentRecord (a : Assignment) : Assignment :=
  { a with status := "Assigned", read := none, measurements := none }

/-- The reasons that select the new/override branch of `assign_single_case`
(line 619). -/
def overrideReasons : List String := ["Breaking a Tie", "Individual Assignment"]

/-- Observable outcome of one `assign_single_case` call: the error raised (if
any), the source session's `session_features` block as left on the remote
store, the worker table, the `update_info` writes made to destination-side
`ohifViewer` annotations (session id, sanitised reader id, final notes
dict), the destination session created by export, the `case_states` value
written to the source project's `project_features` when that write is
reached (the inner `Option` mirrors an absent `project_features` being
written back as-is), and the assignments/max_cases block written to the
reader project when that write is reached. -/
structure SingleOutcome where
  err : Option PyErr
  srcInfo : Option SessionFeatures
  dest : List Worker
  viewerWrites : List (Nat × String × List (String × String))
  exported : Option Nat
  projectWrite : Option (Option (List SessionAttributes))
  workerWrite : Option (Nat × List (Nat × Nat) × Nat)
deriving DecidableEq, Repr

/-- Remove the first element satisfying `p`; models the
`pop(index(case[0]))` step of the case-states upsert. -/
def removeFirst (p : α → Bool) : List α → List α
  | [] => []
  | a :: as => if p a then as else a :: removeFirst p as

/-- Embeds the per-session rollup loop of `assign_single_case`
(lines 727-750): for each session of the source project, read its
`session_features` (a `TypeError` at line 731 when absent, because
`info.get` returned `None`), compute its attributes, and replace-or-append
them in `project_features["case_states"]` (a `TypeError` at line 742 when
the project carries no `project_features`, since line 594 sets no default).
`project_features` is represented by its `case_states` list, the only part
this loop touches; its other keys pass through unchanged. -/
def rollupSessions : List Session → Option (List SessionAttributes) →
    Except PyErr (Option (List SessionAttributes))
  | [], pf => Except.ok pf
  | s :: rest, pf =>
    match s.features with
    | none => Except.error PyErr.TypeError
    | some sfs =>
      match pf with
      | none => Except.error PyErr.TypeError
      | some cs =>
        rollupSessions rest
          (some (removeFirst (fun c => decide (c.id = s.id)) cs
            ++ [set_project_session_attributes s.id s.label sfs]))

/-- Embeds the shared tail of `assign_single_case` (lines 719-776) run after
either branch completes: `session_features` has just been restored to the
source session (line 725, hence `srcInfo = some sf` in every outcome below);
then the per-session rollup runs, the source project's `project_features`
(line 755) and the reader project's features (lines 758-764) are persisted,
and finally the `return` at line 776 references `exported_data_df` — a name
assigned only inside `distribute_cases_to_readers`, never in this
function — so every call reaching the return raises `NameError`, after its
effects were already persisted. -/
def singleCaseTail (sf : SessionFeatures) (destL : List Worker)
    (vw : List (Nat × String × List (String × String))) (exp : Option Nat)
    (wwrite : Nat × List (Nat × Nat) × Nat)
    (projectSessions : List Session)
    (projectFeatures : Option (List SessionAttributes)) : SingleOutcome :=
  match rollupSessions projectSessions projectFeatures with
  | Except.error e => ⟨some e, some sf, destL, vw, exp, none, none⟩
  | Except.ok cs =>
    ⟨some PyErr.NameError, some sf, destL, vw, exp, some cs, some wwrite⟩

/-- Embeds `assign_single_case` of `assign_single_case/utils/manage_cases.py`
(lines 589-776) in full.  `exportS` is the outcome of the external
`export_session` collaborator (`none` = it raised); `destNotes` maps a
destination session id to the notes dict found at
`info["ohifViewer"]["read"][reader_id]["notes"]` (`none` = missing key);
`projectSessions` are the source project's sessions as re-read during the
rollup loop (each is reloaded at line 728, so the source session appears
with its just-restored features); `projectFeatures` is the source project's
`project_features["case_states"]` list, `none` when the project carries no
`project_features`.  The call of `set_session_features` deletes the block
from the source session, so every raise between that point and the restore
at line 725 leaves `srcInfo = none`.  When export fails in the override
branch the exception is caught and logged, after which line 658 reads the
never-bound local `dest_session`: a `NameError`.  A call completing either
branch runs `singleCaseTail`: its effects are persisted and then the
`return` at line 776 raises `NameError` on the undefined
`exported_data_df`. -/
def assign_single_case (exportS : Option Nat)
    (destNotes : Nat → Option (List (String × String)))
    (srcId : Nat) (srcLabel : String) (srcInfo : Option SessionFeatures)
    (readerSessionLabels : List String) (dest : List Worker)
    (projectSessions : List Session)
    (projectFeatures : Option (List SessionAttributes))
    (reader_id reason : String) : SingleOutcome :=
  match dest.findIdx? (fun w => decide (w.reader_id = reader_id)) with
  | none => ⟨some PyErr.IndexError, srcInfo, dest, [], none, none, none⟩
  | some indx =>
    match dest.get? indx with
    | none => ⟨some PyErr.IndexError, srcInfo, dest, [], none, none, none⟩
    | some row =>
      let sf := (set_session_features srcInfo 3).1
      if reason ∈ overrideReasons then
        if row.num_assignments = row.max_cases then
          ⟨some (PyErr.ExceptionMsg "Max assignments reached."), none, dest, [],
            none, none, none⟩
        else if srcLabel ∈ readerSessionLabels then
          ⟨some (PyErr.ExceptionMsg "Existing Session in Destination Project."),
            none, dest, [], none, none, none⟩
        else
          let sf := if sf.assigned_count = sf.case_coverage
            then { sf with case_coverage := sf.case_coverage + 1 } else sf
          match exportS with
          | none => ⟨some PyErr.NameError, none, dest, [], none, none, none⟩
          | some d =>
            let row' := { row with
              assignments := if row.assignments = []
                then [(srcId, d)] else row.assignments ++ [(srcId, d)]
              num_assignments := row.num_assignments + 1 }
            let sf := { sf with
              assigned_count := sf.assigned_count + 1
              assignments := sf.assignments
                ++ [⟨row.id, reader_id, d, "Assigned", none, none⟩] }
            singleCaseTail sf (dest.set indx row') [] (some d)
              (row.id, row'.assignments, row'.max_cases)
              projectSessions projectFeatures
      else
        if srcLabel ∉ readerSessionLabels then
          ⟨some (PyErr.ExceptionMsg "Missing Session in Destination Project."),
            none, dest, [], none, none, none⟩
        else
          match (sf.assignments.filter (fun a => decide (a.reader_id = reader_id))).head? with
          | none => ⟨some PyErr.IndexError, none, dest, [], none, none, none⟩
          | some a0 =>
            let sf := { sf with
              assignments := updateFirst (fun a => decide (a.reader_id = reader_id))
                resetAssignmentRecord sf.assignments }
            match destNotes a0.session_id with
            | none => ⟨some PyErr.KeyError, none, dest, [], none, none, none⟩
            | some _notes =>
              singleCaseTail sf dest
                [(a0.session_id, String.replace reader_id "." "_",
                  [("additionalNotes", reason)])] none
                (row.id, row.assignments, row.max_cases)
                projectSessions projectFeatures

/-- State threaded through the per-worker loop of
`distribute_cases_to_readers` for one case: the worker table, the case's
features, the Python local variable `dest_session` (which survives across
loop iterations and is unbound before the first successful export), and the
error latch. -/
structure BulkState where
  dest : List Worker
  sf : SessionFeatures
  lastDest : Option Nat
  err : Option PyErr
deriving DecidableEq, Repr

/-- Embeds one iteration of the per-worker loop of
`distribute_cases_to_readers` (`assign_single_case/utils/manage_cases.py`
lines 850-900).  The `try`/`except` around `export_session` catches an
export failure and only logs it — there is no `continue` — so the code
falls through to line 882 and uses whatever the local `dest_session` holds:
the previous iteration's destination session, or nothing at all
(`NameError`) if no export has succeeded yet. -/
def bulkAssignWorker (exportS : Nat → Nat → Option Nat) (srcId : Nat)
    (st : BulkState) (project_id : Nat) : BulkState :=
  if st.err.isSome then st else
  match st.dest.findIdx? (fun w => decide (w.id = project_id)) with
  | none => { st with err := some PyErr.IndexError }
  | some indx =>
    match st.dest.get? indx with
    | none => { st with err := some PyErr.IndexError }
    | some w =>
      let lastDest' : Option Nat :=
        match exportS srcId project_id with
        | some d => some d
        | none => st.lastDest
      match lastDest' with
      | none => { st with err := some PyErr.NameError }
      | some d =>
        let w' := { w with
          assignments := if w.assignments = []
            then [(srcId, d)] else w.assignments ++ [(srcId, d)]
          num_assignments := w.num_assignments + 1 }
        { st with
          dest := st.dest.set indx w'
          sf := { st.sf with
            assigned_count := st.sf.assigned_count + 1
            assignments := st.sf.assignments
              ++ [⟨project_id, w.reader_id, d, "Assigned", none, none⟩] }
          lastDest := lastDest' }

/-- The whole per-worker loop of `distribute_cases_to_readers` for one case:
fold `bulkAssignWorker` over the project ids returned by the Allocator. -/
def bulkAssignCase (exportS : Nat → Nat → Option Nat) (srcId : Nat)
    (st : BulkState) (projs : List Nat) : BulkState :=
  projs.foldl (bulkAssignWorker exportS srcId) st

/-- The environment the batch gear's validation reads through the Flywheel
client: the reader group id string (as passed to the gear) and the reader
projects of that group. -/
structure BatchEnv where
  reader_group_id : PyStr
  projects : List ReaderProject
deriving Repr

/-- One row of the manual batch CSV: `session_id, session_label,
reader_email`. -/
structure BatchRow where
  session_id : Nat
  session_label : String
  reader_email : String
deriving DecidableEq, Repr

/-- Embeds `check_valid_reader` of `assign_batch_cases/utils/manage_cases.py`
(lines 185-232): the first reader project whose single contributor identity
is `reader_id`, else `None`. -/
def check_valid_reader (projects : List ReaderProject) (reader_id : String) :
    Option ReaderProject :=
  (projects.filter (fun p => decide (p.reader_id = reader_id))).head?

/-- Failure message of validation check 1 (session not found), lines 338-341. -/
def msgNotFound (session_id : Nat) (reader_email : String) : String :=
  "Session with id (" ++ toString session_id
    ++ ") is not found within a Master Project. "
    ++ "Proceeding without making this assignment to reader ("
    ++ reader_email ++ ")."

/-- Failure message of validation check 2 (forbidden group), lines 349-352. -/
def msgForbiddenGroup (session_id : Nat) : String :=
  "Session with id (" ++ toString session_id
    ++ ") belongs to a reader project.\n"
    ++ "Please correctly identify the session in a Master Project and try again."

/-- Failure message of validation check 3 (reader not established),
lines 358-361. -/
def msgNoReader (reader_email : String) : String :=
  "The reader, " ++ reader_email ++ ", has not been established. "
    ++ "Please run `assign-readers` to establish a project for this reader"

/-- Failure message of validation check 4 (already assigned), lines 366-369. -/
def msgAlreadyAssigned (label reader_email : String) : String :=
  "Selected session (" ++ label ++ ") has already been assigned to reader ("
    ++ reader_email ++ ")."

/-- Failure message of validation check 5 (max_cases reached), lines 374-379. -/
def msgMaxCases (max_cases : Nat) (reader_email : String) : String :=
  "Cannot assign more than " ++ toString max_cases ++ " cases to reader ("
    ++ reader_email ++ "). "
    ++ "Consider increasing max_cases for this reader or choosing another reader."

/-- Failure message of validation check 6 (case_coverage reached),
lines 385-389. -/
def msgCoverage (label : String) (case_coverage : Nat) : String :=
  "Assigning this case (" ++ label ++ ") exceeds case_coverage ("
    ++ toString case_coverage ++ ") for this case."
    ++ "Assignment will not proceed."

/-- The message returned when every check passes, line 392. -/
def msgAllPassed : String := "All validation checks, passed."

/-- Embeds `check_valid_case_assignment` of
`assign_batch_cases/utils/manage_cases.py` (lines 317-392).  The six checks
run in source order with an early return at the first failure.  Check 2 is
the Python expression `src_session.parents["group"] is reader_group_id`:
object identity (`pyIs`), not string equality. -/
def check_valid_case_assignment (env : BatchEnv) (sessions : List Session)
    (session_id : Nat) (reader_email : String) (reader_row : Worker)
    (case_coverage : Nat) : Bool × String :=
  match (sessions.filter (fun s => decide (s.id = session_id))).head? with
  | none => (false, msgNotFound session_id reader_email)
  | some src =>
    if pyIs src.group env.reader_group_id then
      (false, msgForbiddenGroup session_id)
    else
      match check_valid_reader env.projects reader_email with
      | none => (false, msgNoReader reader_email)
      | some reader_proj =>
        if src.label ∈ reader_proj.session_labels then
          (false, msgAlreadyAssigned src.label reader_email)
        else if reader_row.num_assignments = reader_row.max_cases then
          (false, msgMaxCases reader_row.max_cases reader_email)
        else
          let sf := set_session_features_b src.features case_coverage
          if sf.assigned_count = sf.case_coverage then
            (false, msgCoverage src.label sf.case_coverage)
          else
            (true, msgAllPassed)

/-- Specification-side rendering of the six checks of §4.4 as an ordered
list of `(passed, failure message)` pairs for the same inputs; a check whose
prerequisites are missing (e.g. check 4 when the reader does not resolve) is
recorded as passed so that the first genuine failure is the first `false`
entry. -/
def checkResults (env : BatchEnv) (sessions : List Session)
    (session_id : Nat) (reader_email : String) (reader_row : Worker)
    (case_coverage : Nat) : List (Bool × String) :=
  let src? := (sessions.filter (fun s => decide (s.id = session_id))).head?
  let rp? := check_valid_reader env.projects reader_email
  let label := match src? with | some s => s.label | none => ""
  let sf? := match src? with
    | some s => some (set_session_features_b s.features case_coverage)
    | none => none
  [ (src?.isSome, msgNotFound session_id reader_email),
    (match src? with
      | some s => !(decide (pyIs s.group env.reader_group_id))
      | none => true, msgForbiddenGroup session_id),
    (rp?.isSome, msgNoReader reader_email),
    (match src?, rp? with
      | some s, some rp => !(decide (s.label ∈ rp.session_labels))
      | _, _ => true, msgAlreadyAssigned label reader_email),
    (!(decide (reader_row.num_assignments = reader_row.max_cases)),
      msgMaxCases reader_row.max_cases reader_email),
    (match sf? with
      | some sf => !(decide (sf.assigned_count = sf.case_coverage))
      | none => true,
      msgCoverage label (match sf? with | some sf => sf.case_coverage | none => case_coverage)) ]

/-- Specification-side first-failure semantics: the `(passed, message)` pair
of the first failing check, or the all-passed outcome. -/
def firstFailOutcome (l : List (Bool × String)) : Bool × String :=
  match l.find? (fun p => !p.1) with
  | some p => (false, p.2)
  | none => (true, msgAllPassed)

/-- State threaded through the row loop of `distribute_batch_to_readers`:
the worker table, the source sessions (with their remotely persisted
features), the per-row `(passed, message)` outcomes, the Python local
variables `reader_proj` (a project id, or `None` when the row's email is
unknown) and `project_info` (the pending worker feature block last computed
inside the loop), the `update_info` writes made to reader projects and to
source sessions, and the error latch. -/
structure BatchState where
  dest : List Worker
  sessions : List Session
  outcomes : List (Bool × String)
  readerProjVar : Option Nat
  projectInfoVar : Option (List (Nat × Nat) × Nat)
  workerWrites : List (Nat × List (Nat × Nat) × Nat)
  sessionWrites : List (Nat × SessionFeatures)
  err : Option PyErr
deriving DecidableEq, Repr

/-- Embeds lines 479-490 of `distribute_batch_to_readers`: locate the row's
reader project, padding with the table's first row (and `reader_proj =
None`) when the email is not in the table.  Returns the row index and the
value of the `reader_proj` variable. -/
def locateReader (dest : List Worker) (email : String) :
    Option (Nat × Option Nat) :=
  match dest.findIdx? (fun w => decide (w.reader_id = email)) with
  | some i => some (i, (dest.get? i).map (fun w => w.id))
  | none => if dest.isEmpty then none else some (0, none)

/-- Embeds one iteration of the row loop of `distribute_batch_to_readers`
(`assign_batch_cases/utils/manage_cases.py` lines 467-555).  An invalid row
records its `(False, message)` outcome and continues; an export failure is
caught and continues with the row's outcome left at its initialised
`(True, "")`; a successful export updates the worker row, the session's
features, and the `project_info` variable — whose `update_info` call sits
*after* the loop (line 557-558). -/
def processBatchRow (env : BatchEnv) (exportS : Nat → Nat → Option Nat)
    (case_coverage : Nat) (st : BatchState) (row : BatchRow) : BatchState :=
  if st.err.isSome then st else
  let src? := (st.sessions.filter (fun s => decide (s.id = row.session_id))).head?
  let sf? : Option SessionFeatures := match src? with
    | some s => some (set_session_features_b s.features case_coverage)
    | none => none
  match locateReader st.dest row.reader_email with
  | none => { st with err := some PyErr.IndexError }
  | some (indx, rpv) =>
    match st.dest.get? indx with
    | none => { st with err := some PyErr.IndexError }
    | some reader_row =>
      let vm := check_valid_case_assignment env st.sessions row.session_id
        row.reader_email reader_row case_coverage
      if vm.1 = false then
        { st with outcomes := st.outcomes ++ [(false, vm.2)], readerProjVar := rpv }
      else
        match exportS row.session_id reader_row.id with
        | none =>
          { st with outcomes := st.outcomes ++ [(true, "")], readerProjVar := rpv }
        | some d =>
          match src?, sf? with
          | some src, some sf =>
            let reader_row' := { reader_row with
              assignments := if reader_row.assignments = []
                then [(src.id, d)] else reader_row.assignments ++ [(src.id, d)]
              num_assignments := reader_row.num_assignments + 1 }
            let sf' := { sf with
              assigned_count := sf.assigned_count + 1
              assignments := sf.assignments
                ++ [⟨reader_row.id, row.reader_email, d, "Assigned", none, none⟩] }
            { st with
              dest := st.dest.set indx reader_row'
              sessions := st.sessions.map (fun s =>
                if decide (s.id = src.id) then { s with features := some sf' } else s)
              outcomes := st.outcomes ++ [(true, "")]
              readerProjVar := rpv
              projectInfoVar := some (reader_row'.assignments, reader_row'.max_cases)
              sessionWrites := st.sessionWrites ++ [(src.id, sf')] }
          | _, _ => { st with err := some PyErr.KeyError, readerProjVar := rpv }

/-- Embeds `distribute_batch_to_readers`
(`assign_batch_cases/utils/manage_cases.py` lines 395-590) over an
already-loaded batch table: the `NoReaderProjectsError` guard, the row loop,
and the single deferred worker `update_info` at lines 557-558, which pairs
the last computed `project_info` with whatever project the `reader_proj`
variable last pointed at — dereferencing `None` (an `AttributeError`) if the
final row's reader email was unknown.  The trailing source-side
`case_states` rollup is total and not modelled. -/
def distribute_batch_to_readers (env : BatchEnv)
    (exportS : Nat → Nat → Option Nat) (case_coverage : Nat)
    (dest0 : List Worker) (sessions0 : List Session) (rows : List BatchRow) :
    BatchState :=
  let st0 : BatchState := ⟨dest0, sessions0, [], none, none, [], [], none⟩
  if dest0.length = 0 then
    { st0 with err := some (PyErr.ExceptionMsg "NoReaderProjectsError") }
  else
    let st := rows.foldl (processBatchRow env exportS case_coverage) st0
    if st.err.isSome then st else
    match st.projectInfoVar with
    | none => st
    | some pinfo =>
      match st.readerProjVar with
      | none => { st with err := some PyErr.AttributeError }
      | some pid => { st with workerWrites := st.workerWrites ++ [(pid, pinfo)] }

/-- Worker table for the Allocator phase-1 counterexample: Reader 1 already
holds the case (1 assignment), Reader 2 and Reader 3 are eligible with loads
1 and 2 respectively... see `sfC2`. -/
def dfC2 : List Worker :=
  [⟨1, "Reader 1", "ra@x", [(50, 100)], 5, 1⟩,
   ⟨2, "Reader 2", "rb@x", [], 5, 2⟩,
   ⟨3, "Reader 3", "rc@x", [], 5, 3⟩]

/-- Session features for the Allocator phase-1 counterexample: coverage 2,
one existing assignment held by project 1, so `avail = 1`. -/
def sfC2 : SessionFeatures :=
  ⟨2, [⟨1, "ra@x", 100, "Assigned", none, none⟩], 1⟩

/-- Session features for the spec's fairness example: coverage 1, no
assignments, `avail = 1`. -/
def sfFair : SessionFeatures := ⟨1, [], 0⟩

/-- Worker table for the spec's fairness example: loads `[0, 0, 2]`,
capacities `[5, 5, 5]`. -/
def dfFair : List Worker :=
  [⟨1, "Reader 1", "r1@x", [], 5, 0⟩,
   ⟨2, "Reader 2", "r2@x", [], 5, 0⟩,
   ⟨3, "Reader 3", "r3@x", [], 5, 2⟩]

/-- Session features for the partial-coverage witness: coverage 3, nothing
assigned yet, so `avail = 3`. -/
def sfW8 : SessionFeatures := ⟨3, [], 0⟩

/-- Worker table for the partial-coverage witness: two eligible workers and
one at capacity. -/
def dfW8 : List Worker :=
  [⟨1, "Reader 1", "r1@x", [], 5, 0⟩,
   ⟨2, "Reader 2", "r2@x", [], 5, 1⟩,
   ⟨3, "Reader 3", "r3@x", [], 3, 3⟩]

/-- Session features with a single assignment whose status is `"Measured"`,
used against the claim that the `assigned` rollup counts only status
`"Assigned"`. -/
def sfMeasured : SessionFeatures :=
  ⟨1, [⟨1, "ra@x", 40, "Measured", none, none⟩], 1⟩

/-- Worker table for the bulk-distribution export-failure scenario. -/
def dfC1 : List Worker :=
  [⟨1, "Reader 1", "ra", [], 5, 0⟩, ⟨2, "Reader 2", "rb", [], 5, 0⟩]

/-- Initial per-case state for the bulk-distribution export-failure
scenario: coverage 2, nothing assigned, `dest_session` unbound. -/
def stC1 : BulkState := ⟨dfC1, ⟨2, [], 0⟩, none, none⟩

/-- Export collaborator that succeeds for project 1 (destination session
100) and raises for project 2. -/
def exportC1 : Nat → Nat → Option Nat :=
  fun _ p => if p = 1 then some 100 else none

/-- Export collaborator that always raises. -/
def exportFailAll : Nat → Nat → Option Nat := fun _ _ => none

/-- Features of the override-witness case: coverage 2, already at full
coverage with two assignments. -/
def sfOver : SessionFeatures :=
  ⟨2, [⟨7, "a@x", 70, "Assigned", none, none⟩,
       ⟨8, "b@x", 80, "Assigned", none, none⟩], 2⟩

/-- Worker table holding the third reader targeted by the override witness. -/
def destOver : List Worker := [⟨9, "Reader 9", "c@x", [], 5, 0⟩]

/-- Features of the reassignment-witness case: one assignment to `r@x` in
status `"Measured"` carrying a measurements payload. -/
def sfReassign : SessionFeatures :=
  ⟨3, [⟨4, "r@x", 40, "Measured", none, some "m"⟩], 1⟩

/-- Worker table for the reassignment witness. -/
def destReassign : List Worker := [⟨4, "Reader 4", "r@x", [(21, 40)], 5, 1⟩]

/-- Destination-side viewer notes for the reassignment witness: session 40
has one pre-existing note. -/
def notesReassign : Nat → Option (List (String × String)) :=
  fun sid => if sid = 40 then some [("note1", "old")] else none

/-- Worker table for the borrow-and-restore failing input: the named reader
is at capacity (`num_assignments = max_cases = 2`). -/
def destAtCap : List Worker := [⟨4, "Reader 4", "r@x", [], 2, 2⟩]

/-- The features of the override-scenario case after the successful
override: coverage 3, three assignments, count 3. -/
def sfOverAfter : SessionFeatures :=
  ⟨3, [⟨7, "a@x", 70, "Assigned", none, none⟩,
       ⟨8, "b@x", 80, "Assigned", none, none⟩,
       ⟨9, "c@x", 99, "Assigned", none, none⟩], 3⟩

/-- The source project's sessions as re-read during the rollup of the
override scenario: only the source case itself, carrying its just-restored
features. -/
def projSessionsOver : List Session :=
  [⟨50, "case50", ⟨5, "master"⟩, some sfOverAfter⟩]

/-- The features of the reassignment-scenario case after the reset: status
back to `"Assigned"`, both payloads gone. -/
def sfReassignAfter : SessionFeatures :=
  ⟨3, [⟨4, "r@x", 40, "Assigned", none, none⟩], 1⟩

/-- The source project's sessions as re-read during the rollup of the
reassignment scenario. -/
def projSessionsReassign : List Session :=
  [⟨21, "c21", ⟨5, "master"⟩, some sfReassignAfter⟩]

/-- Batch environment shared by the batch-gear scenarios: reader group id
`"readers"` (object 0) and two established reader projects. -/
def envBatch : BatchEnv :=
  ⟨⟨0, "readers"⟩, [⟨1, "a@x", []⟩, ⟨2, "b@x", []⟩]⟩

/-- Worker table for the batch-gear scenarios. -/
def destBatch : List Worker :=
  [⟨1, "Project 1", "a@x", [], 5, 0⟩, ⟨2, "Project 2", "b@x", [], 5, 0⟩]

/-- Source sessions for the batch-gear scenarios: two cases in a master
project (group object 5, value "master"), no features yet. -/
def sessionsBatch : List Session :=
  [⟨1, "c1", ⟨5, "master"⟩, none⟩, ⟨2, "c2", ⟨5, "master"⟩, none⟩]

/-- Export collaborator for the batch-gear scenarios: always succeeds,
destination session id `10 * session + project`. -/
def exportBatch : Nat → Nat → Option Nat := fun s p => some (10 * s + p)

/-- Batch rows assigning case 1 to reader `a@x` and case 2 to reader
`b@x` — two successful assignments to two different workers. -/
def rowsTwoReaders : List BatchRow :=
  [⟨1, "c1", "a@x"⟩, ⟨2, "c2", "b@x"⟩]

/-- Batch rows whose first row succeeds and whose final row names an unknown
reader. -/
def rowsGhostLast : List BatchRow :=
  [⟨1, "c1", "a@x"⟩, ⟨2, "c2", "ghost@x"⟩]

/-- Batch rows whose first row fails validation (unknown reader) and whose
final row succeeds. -/
def rowsGhostFirst : List BatchRow :=
  [⟨1, "c1", "ghost@x"⟩, ⟨2, "c2", "b@x"⟩]

/-- A session whose parent group *value* equals the reader group id but is a
different string object — the situation at runtime, where the session's
group id is parsed from an API response rather than being the very object
passed as `reader_group_id`. -/
def sessionsGroupVal : List Session := [⟨7, "c7", ⟨1, "readers"⟩, none⟩]

/-- Batch environment whose reader group id string is a distinct object with
the same value "readers". -/
def envGroupVal : BatchEnv := ⟨⟨2, "readers"⟩, [⟨1, "a@x", []⟩]⟩

/-- Batch environment whose reader group id string is the *same object* as
the session's parent group string. -/
def envGroupIdent : BatchEnv := ⟨⟨1, "readers"⟩, [⟨1, "a@x", []⟩]⟩

/-- Reader row used when exercising `check_valid_case_assignment` directly. -/
def rrowCheck : Worker := ⟨1, "Project 1", "a@x", [], 5, 0⟩

theorem validChooseFirst : ValidChooser chooseFirst := by
  intro l n
  exact ⟨List.length_take n l, l.take n, List.take_sublist n l, List.Perm.refl _⟩

theorem validChooseLast : ValidChooser chooseLast := by
  intro l n
  refine ⟨?_, (l.reverse.take n).reverse, ?_, ?_⟩
  · rw [chooseLast, List.length_take, List.length_reverse]
  · have h1 : (l.reverse.take n).Sublist l.reverse := List.take_sublist n l.reverse
    have h2 := h1.reverse
    rwa [List.reverse_reverse] at h2
  · exact (List.reverse_perm (l.reverse.take n)).symm

/-- C6 counterexample: for a case whose single assignment has status
`"Measured"`, the rollup's `assigned` field is 1 (the total number of
assignments), while the number of assignments with status `"Assigned"` is
0 — so `assigned` is not the count of status-`"Assigned"` assignments. -/
theorem C6_counterexample :
    (set_project_session_attributes 5 "case5" sfMeasured).assigned = 1 ∧
    (sfMeasured.assignments.filter (fun a => decide (a.status = "Assigned"))).length = 0 ∧
    (set_project_session_attributes 5 "case5" sfMeasured).measured = 1 := by
  decide

/-- C6 (amended): for every session features value, the derived rollup has
`unassigned = case_coverage - len(assignments)`, `assigned` equal to the
total number of assignments regardless of status, and
`diagnosed`/`measured`/`completed` equal to the counts of assignments with
the respective status; the derivation is a pure function of its inputs. -/
theorem C6_amended_thm (i : Nat) (label : String) (sf : SessionFeatures) :
    (set_project_session_attributes i label sf).unassigned
      = (sf.case_coverage : Int) - sf.assignments.length ∧
    (set_project_session_attributes i label sf).assigned
      = sf.assignments.length ∧
    (set_project_session_attributes i label sf).diagnosed
      = (sf.assignments.filter (fun a => decide (a.status = "Diagnosed"))).length ∧
    (set_project_session_attributes i label sf).measured
      = (sf.assignments.filter (fun a => decide (a.status = "Measured"))).length ∧
    (set_project_session_attributes i label sf).completed
      = (sf.assignments.filter (fun a => decide (a.status = "Completed"))).length ∧
    (set_project_session_attributes i label sf).case_coverage = sf.case_coverage ∧
    (set_project_session_attributes i label sf).id = i ∧
    (set_project_session_attributes i label sf).label = label := by
  simp [set_project_session_attributes]

/-- C1: evaluation of the bulk per-worker loop at an input where export
raises for the second worker and at one where it raises for the first.
With a prior success, the failing (case, worker) pair is *not* skipped: an
`Assignment` for project 2 is still recorded — reusing project 1's
destination session id 100 — and both `assigned_count` and the worker's
`num_assignments` are incremented.  With no prior success the loop aborts
with a `NameError` on the unbound `dest_session` local. -/
theorem C1_code_behavior :
    (bulkAssignCase exportC1 10 stC1 [1, 2]).err = none ∧
    (bulkAssignCase exportC1 10 stC1 [1, 2]).sf.assignments =
      [⟨1, "ra", 100, "Assigned", none, none⟩,
       ⟨2, "rb", 100, "Assigned", none, none⟩] ∧
    (bulkAssignCase exportC1 10 stC1 [1, 2]).sf.assigned_count = 2 ∧
    ((bulkAssignCase exportC1 10 stC1 [1, 2]).dest.map
      (fun w => w.num_assignments)) = [1, 1] ∧
    (bulkAssignCase exportFailAll 10 stC1 [1]).err = some PyErr.NameError := by
  decide

/-- C9: evaluation of `assign_single_case` at a failing input — an override
request for a reader already at capacity.  The source session's
`session_features` was deleted by `set_session_features` and the capacity
check raises before the restore, leaving the source permanently stripped
(`srcInfo = none`) even though the call started with features present. -/
theorem C9_code_behavior :
    (assign_single_case (some 5) (fun _ => none) 21 "c21"
        (some ⟨3, [], 0⟩) [] destAtCap [] none "r@x" "Breaking a Tie").err
      = some (PyErr.ExceptionMsg "Max assignments reached.") ∧
    (assign_single_case (some 5) (fun _ => none) 21 "c21"
        (some ⟨3, [], 0⟩) [] destAtCap [] none "r@x" "Breaking a Tie").srcInfo
      = none := by
  decide

/-- C10: evaluation of the forbidden-group check.  When the session's parent
group string has the same *value* as the reader group id but is a different
object — the normal runtime situation — the `is` comparison fails and
validation passes all six checks; only when the two are the same object
does the check fire. -/
theorem C10_code_behavior :
    (check_valid_case_assignment envGroupVal sessionsGroupVal 7 "a@x" rrowCheck 3)
      = (true, msgAllPassed) ∧
    (⟨1, "readers"⟩ : PyStr).val = envGroupVal.reader_group_id.val ∧
    ¬ pyIs ⟨1, "readers"⟩ envGroupVal.reader_group_id ∧
    (check_valid_case_assignment envGroupIdent sessionsGroupVal 7 "a@x" rrowCheck 3)
      = (false, msgForbiddenGroup 7) := by
  decide

/-- C7: evaluation of the manual batch run at a failing input — two rows,
both successfully assigned, touching two different workers.  Both in-memory
worker rows are updated (`num_assignments = [1, 1]`) but the deferred
worker-side `update_info` at the end of the loop persists `ProjectFeatures`
for project 2 only: project 1's successful assignment is never written
back. -/
theorem C7_code_behavior :
    (distribute_batch_to_readers envBatch exportBatch 3 destBatch
        sessionsBatch rowsTwoReaders).err = none ∧
    (distribute_batch_to_readers envBatch exportBatch 3 destBatch
        sessionsBatch rowsTwoReaders).outcomes = [(true, ""), (true, "")] ∧
    ((distribute_batch_to_readers envBatch exportBatch 3 destBatch
        sessionsBatch rowsTwoReaders).dest.map (fun w => w.num_assignments))
      = [1, 1] ∧
    ((distribute_batch_to_readers envBatch exportBatch 3 destBatch
        sessionsBatch rowsTwoReaders).workerWrites.map (fun p => p.1)) = [2] := by
  decide

/-- C3 counterexample: a batch whose first row succeeds and whose final row
fails validation with an unknown reader.  The failing row is recorded softly
and does not stop row processing, but the run then crashes: the deferred
worker write dereferences the `None` left in `reader_proj`
(an `AttributeError`), so the run does *not* still succeed. -/
theorem C3_counterexample :
    (distribute_batch_to_readers envBatch exportBatch 3 destBatch
        sessionsBatch rowsGhostLast).err = some PyErr.AttributeError ∧
    (distribute_batch_to_readers envBatch exportBatch 3 destBatch
        sessionsBatch rowsGhostLast).outcomes
      = [(true, ""), (false, msgNoReader "ghost@x")] := by
  decide

/-- C2 counterexample: worker 1 holds the case already (load 1), workers 2
and 3 are eligible with loads 1 and 2.  The minimum load among *eligible*
workers is 1 and that minimum-load pool (`[worker 2]`) can satisfy
`avail = 1`, yet the code — whose phase-1 pool is empty because the
table-wide minimum (1) is attained only by the ineligible worker 1 — falls
through to phase 2 and can select the higher-loaded worker 3; both draws
performed are legitimate sampling-without-replacement outcomes. -/
theorem C2_counterexample :
    select_readers_without_replacement chooseLast sfC2 dfC2 = [3] ∧
    availCaseCoverage sfC2 = 1 ∧
    (eligibleMinPool sfC2 dfC2).map (fun w => w.id) = [2] ∧
    3 ∉ (eligibleMinPool sfC2 dfC2).map (fun w => w.id) ∧
    IsChoice [] 0 [] ∧
    IsChoice [2, 3] 1 [3] := by
  refine ⟨by decide, by decide, by decide, by decide,
    ⟨by decide, [], by decide, by decide⟩,
    ⟨by decide, [3], by decide, by decide⟩⟩

theorem updateFirst_length (p : α → Bool) (f : α → α) :
    ∀ l : List α, (updateFirst p f l).length = l.length := by
  intro l
  induction l with
  | nil => rfl
  | cons hd tl ih =>
    rw [updateFirst]
    by_cases hp : p hd
    · simp [hp]
    · simp [hp, ih]

theorem updateFirst_reset_all (rid : String) :
    ∀ l : List Assignment,
      (l.filter (fun a => decide (a.reader_id = rid))).length ≤ 1 →
      ∀ a ∈ updateFirst (fun a => decide (a.reader_id = rid))
          resetAssignmentRecord l,
        a.reader_id = rid →
          a.status = "Assigned" ∧ a.read = none ∧ a.measurements = none := by
  intro l
  induction l with
  | nil => intro _ a ha; simp [updateFirst] at ha
  | cons hd tl ih =>
    intro hlen a ha hrid
    by_cases hp : hd.reader_id = rid
    · have hu : updateFirst (fun a => decide (a.reader_id = rid))
          resetAssignmentRecord (hd :: tl) = resetAssignmentRecord hd :: tl := by
        simp [updateFirst, hp]
      rw [hu, List.mem_cons] at ha
      rcases ha with ha | ha
      · subst ha
        exact ⟨rfl, rfl, rfl⟩
      · exfalso
        have h1 : (List.filter (fun a => decide (a.reader_id = rid)) (hd :: tl)).length
            = (List.filter (fun a => decide (a.reader_id = rid)) tl).length + 1 := by
          simp [List.filter_cons, hp]
        have h0 : (tl.filter (fun a => decide (a.reader_id = rid))).length = 0 := by
          omega
        have hmem : a ∈ tl.filter (fun a => decide (a.reader_id = rid)) :=
          List.mem_filter.mpr ⟨ha, by simp [hrid]⟩
        rw [List.length_eq_zero] at h0
        simp [h0] at hmem
    · have hu : updateFirst (fun a => decide (a.reader_id = rid))
          resetAssignmentRecord (hd :: tl)
          = hd :: updateFirst (fun a => decide (a.reader_id = rid))
              resetAssignmentRecord tl := by
        simp [updateFirst, hp]
      rw [hu, List.mem_cons] at ha
      rcases ha with ha | ha
      · subst ha; exact absurd hrid hp
      · have heq : List.filter (fun a => decide (a.reader_id = rid)) (hd :: tl)
            = List.filter (fun a => decide (a.reader_id = rid)) tl := by
          simp [List.filter_cons, hp]
        rw [heq] at hlen
        exact ih hlen a ha hrid

/-- C4: evaluation of the override path at a completing input — reason
"Individual Assignment", spare capacity, no duplicate session, successful
export, case at full coverage (`case_coverage = 2`, two assignments).
Every update the claim lists happens and is persisted: `case_coverage`
becomes 3, a third `Assignment` with status `"Assigned"` is appended,
`assigned_count` becomes 3, and the worker's features are written back.
But the claim's "raises no error" is false: the `return` at line 776
references `exported_data_df`, which is never assigned in
`assign_single_case`, and the call raises `NameError`. -/
theorem C4_code_behavior :
    (assign_single_case (some 99) (fun _ => none) 50 "case50" (some sfOver) []
        destOver projSessionsOver (some []) "c@x" "Individual Assignment").err
      = some PyErr.NameError ∧
    (assign_single_case (some 99) (fun _ => none) 50 "case50" (some sfOver) []
        destOver projSessionsOver (some []) "c@x" "Individual Assignment").srcInfo
      = some sfOverAfter ∧
    (assign_single_case (some 99) (fun _ => none) 50 "case50" (some sfOver) []
        destOver projSessionsOver (some []) "c@x" "Individual Assignment").exported
      = some 99 ∧
    (assign_single_case (some 99) (fun _ => none) 50 "case50" (some sfOver) []
        destOver projSessionsOver (some []) "c@x" "Individual Assignment").workerWrite
      = some (9, [(50, 99)], 5) ∧
    (assign_single_case (some 99) (fun _ => none) 50 "case50" (some sfOver) []
        destOver projSessionsOver (some []) "c@x" "Individual Assignment").projectWrite
      = some (some [set_project_session_attributes 50 "case50" sfOverAfter]) := by
  decide

/-- C5: evaluation of the reassignment path.  The not-assigned prong of the
claim holds: a case absent from the reader's project fails with the
missing-session-in-destination error.  But the assigned prong's implicit
success is false: the reset of the existing `Assignment` (status
`"Assigned"`, both payloads removed), the annotation rewrite to the single
reason note, the absence of export and the unchanged worker table all hold
and are persisted, yet the call then raises `NameError` at the `return` on
the undefined `exported_data_df`. -/
theorem C5_code_behavior :
    (assign_single_case none notesReassign 21 "c21" (some sfReassign) []
        destReassign projSessionsReassign (some []) "r@x" "Please remeasure").err
      = some (PyErr.ExceptionMsg "Missing Session in Destination Project.") ∧
    (assign_single_case none notesReassign 21 "c21" (some sfReassign) ["c21"]
        destReassign projSessionsReassign (some []) "r@x" "Please remeasure").err
      = some PyErr.NameError ∧
    (assign_single_case none notesReassign 21 "c21" (some sfReassign) ["c21"]
        destReassign projSessionsReassign (some []) "r@x" "Please remeasure").srcInfo
      = some sfReassignAfter ∧
    (assign_single_case none notesReassign 21 "c21" (some sfReassign) ["c21"]
        destReassign projSessionsReassign (some []) "r@x" "Please remeasure").viewerWrites
      = [(40, String.replace "r@x" "." "_",
          [("additionalNotes", "Please remeasure")])] ∧
    (assign_single_case none notesReassign 21 "c21" (some sfReassign) ["c21"]
        destReassign projSessionsReassign (some []) "r@x" "Please remeasure").exported
      = none ∧
    (assign_single_case none notesReassign 21 "c21" (some sfReassign) ["c21"]
        destReassign projSessionsReassign (some []) "r@x" "Please remeasure").dest
      = destReassign ∧
    (assign_single_case none notesReassign 21 "c21" (some sfReassign) ["c21"]
        destReassign projSessionsReassign (some []) "r@x" "Please remeasure").workerWrite
      = some (4, [(21, 40)], 5) := by
  refine ⟨by decide, by decide, by decide, rfl, by decide, by decide, by decide⟩

theorem choice_mem {l r : List Nat} {n : Nat} (h : IsChoice l n r) :
    ∀ x ∈ r, x ∈ l := by
  rcases h with ⟨-, s, hs, hp⟩
  intro x hx
  exact hs.subset (hp.subset hx)

theorem choice_nodup {l r : List Nat} {n : Nat} (h : IsChoice l n r)
    (hl : l.Nodup) : r.Nodup := by
  rcases h with ⟨-, s, hs, hp⟩
  exact hp.nodup_iff.mpr (hl.sublist hs)

theorem choice_perm_all {l r : List Nat} {n : Nat} (h : IsChoice l n r)
    (hn : l.length ≤ n) : r.Perm l := by
  rcases h with ⟨hlen, s, hs, hp⟩
  have h1 : r.length = s.length := hp.length_eq
  have h2 : s.length = l.length := by omega
  rw [hs.eq_of_length h2] at hp
  exact hp

theorem p1_implies_elig (sf : SessionFeatures) (df : List Worker) :
    ∀ w : Worker,
      (decide (w.num_assignments = globalMinAssignments df)
        && decide (w.num_assignments < w.max_cases)
        && !(decide (w.id ∈ readersProjAssigned sf))) = true →
      (!(decide (w.id ∈ readersProjAssigned sf))
        && decide (w.num_assignments < w.max_cases)) = true := by
  intro w hw
  simp only [Bool.and_eq_true, Bool.not_eq_true', decide_eq_true_eq,
    decide_eq_false_iff_not] at hw ⊢
  exact ⟨hw.2, hw.1.2⟩

theorem phase1Pool_sublist_eligible (sf : SessionFeatures) (df : List Worker) :
    (phase1Pool sf df).Sublist (eligibleWorkers sf df) :=
  List.monotone_filter_right df (p1_implies_elig sf df)

theorem eligible_mem_props (sf : SessionFeatures) (df : List Worker)
    (w : Worker) (hw : w ∈ eligibleWorkers sf df) :
    w ∈ df ∧ w.id ∉ readersProjAssigned sf ∧
      w.num_assignments < w.max_cases := by
  have h := List.mem_filter.mp hw
  refine ⟨h.1, ?_, ?_⟩
  · have := h.2
    simp only [Bool.and_eq_true, Bool.not_eq_true', decide_eq_true_eq,
      decide_eq_false_iff_not] at this
    exact this.1
  · have := h.2
    simp only [Bool.and_eq_true, Bool.not_eq_true', decide_eq_true_eq,
      decide_eq_false_iff_not] at this
    exact this.2

theorem countP_and_split (p q : α → Bool) (l : List α) :
    l.countP (fun a => p a && q a) + l.countP (fun a => p a && !q a)
      = l.countP p := by
  induction l with
  | nil => rfl
  | cons hd tl ih =>
    simp only [List.countP_cons]
    by_cases hp : p hd <;> by_cases hq : q hd <;> simp [hp, hq] <;> omega

set_option maxHeartbeats 1000000 in
/-- C8: for every worker table with distinct project ids and `avail >= 0`,
any sampling-without-replacement outcome of the Allocator contains no
duplicate ids, no worker already holding an assignment for this case, no
worker at or over capacity, and has length exactly
`min(avail, number of eligible workers)` — in particular, partial coverage
(fewer eligible workers than `avail`) returns all eligible workers and
raises no error. -/
theorem C8_thm (choose : List Nat → Nat → List Nat) (hc : ValidChooser choose)
    (sf : SessionFeatures) (df : List Worker)
    (hnd : (df.map (fun w => w.id)).Nodup)
    (hav : 0 ≤ availCaseCoverage sf) :
    (select_readers_without_replacement choose sf df).Nodup ∧
    (∀ x ∈ select_readers_without_replacement choose sf df,
      x ∉ readersProjAssigned sf) ∧
    (∀ x ∈ select_readers_without_replacement choose sf df,
      ∃ w, w ∈ df ∧ w.id = x ∧ w.num_assignments < w.max_cases) ∧
    (select_readers_without_replacement choose sf df).length
      = min (availCaseCoverage sf).toNat (eligibleWorkers sf df).length := by
  have hsubPE : (phase1Pool sf df).Sublist (eligibleWorkers sf df) :=
    phase1Pool_sublist_eligible sf df
  have hsubED : (eligibleWorkers sf df).Sublist df := List.filter_sublist df
  have hEnodup : ((eligibleWorkers sf df).map (fun w => w.id)).Nodup :=
    List.Nodup.sublist (hsubED.map (fun w => w.id)) hnd
  have hP1nodup : ((phase1Pool sf df).map (fun w => w.id)).Nodup :=
    List.Nodup.sublist (hsubPE.map (fun w => w.id)) hEnodup
  have hEprops : ∀ x ∈ (eligibleWorkers sf df).map (fun w => w.id),
      x ∉ readersProjAssigned sf ∧
        ∃ w, w ∈ df ∧ w.id = x ∧ w.num_assignments < w.max_cases := by
    intro x hx
    rcases List.mem_map.mp hx with ⟨w, hw, rfl⟩
    obtain ⟨hwdf, hnass, hcap⟩ := eligible_mem_props sf df w hw
    exact ⟨hnass, w, hwdf, rfl, hcap⟩
  simp only [select_readers_without_replacement]
  split_ifs with hcase
  · -- phase 2 runs: the phase-1 pool was smaller than avail
    generalize hd1 : choose ((phase1Pool sf df).map (fun w => w.id))
      (min (availCaseCoverage sf) ((phase1Pool sf df).length : Int)).toNat = d1
    have hch1 := hc ((phase1Pool sf df).map (fun w => w.id))
      (min (availCaseCoverage sf) ((phase1Pool sf df).length : Int)).toNat
    rw [hd1] at hch1
    generalize hd2 : choose ((phase2Pool sf df d1).map (fun w => w.id))
      (min (availCaseCoverage sf - ((phase1Pool sf df).length : Int))
        ((phase2Pool sf df d1).length : Int)).toNat = d2
    have hch2 := hc ((phase2Pool sf df d1).map (fun w => w.id))
      (min (availCaseCoverage sf - ((phase1Pool sf df).length : Int))
        ((phase2Pool sf df d1).length : Int)).toNat
    rw [hd2] at hch2
    have hd1perm : d1.Perm ((phase1Pool sf df).map (fun w => w.id)) := by
      apply choice_perm_all hch1
      rw [List.length_map]
      omega
    have hd1nodup : d1.Nodup := hd1perm.nodup_iff.mpr hP1nodup
    have hP2subE : (phase2Pool sf df d1).Sublist (eligibleWorkers sf df) := by
      apply List.monotone_filter_right
      intro w hw
      simp only [Bool.and_eq_true, Bool.not_eq_true', decide_eq_true_eq,
        decide_eq_false_iff_not, List.mem_append] at hw ⊢
      exact ⟨fun hmem => hw.1 (Or.inl hmem), hw.2⟩
    have hP2nodup : ((phase2Pool sf df d1).map (fun w => w.id)).Nodup :=
      List.Nodup.sublist (hP2subE.map (fun w => w.id)) hEnodup
    have hd2nodup : d2.Nodup := choice_nodup hch2 hP2nodup
    have hd2mem : ∀ x ∈ d2, x ∈ (phase2Pool sf df d1).map (fun w => w.id) :=
      choice_mem hch2
    have hdisj : d1.Disjoint d2 := by
      intro x hx1 hx2
      rcases List.mem_map.mp (hd2mem x hx2) with ⟨w, hw, rfl⟩
      have hpred := (List.mem_filter.mp hw).2
      simp only [Bool.and_eq_true, Bool.not_eq_true', decide_eq_true_eq,
        decide_eq_false_iff_not, List.mem_append] at hpred
      exact hpred.1 (Or.inr hx1)
    have hmemE : ∀ x ∈ d1 ++ d2,
        x ∈ (eligibleWorkers sf df).map (fun w => w.id) := by
      intro x hx
      rcases List.mem_append.mp hx with hx | hx
      · exact (hsubPE.map (fun w => w.id)).subset (hd1perm.subset hx)
      · exact (hP2subE.map (fun w => w.id)).subset (hd2mem x hx)
    have hkey : (phase1Pool sf df).length + (phase2Pool sf df d1).length
        = (eligibleWorkers sf df).length := by
      have e1 : (eligibleWorkers sf df).length = df.countP (fun w =>
          !(decide (w.id ∈ readersProjAssigned sf))
          && decide (w.num_assignments < w.max_cases)) := by
        rw [eligibleWorkers, ← List.countP_eq_length_filter]
      have e2 : (phase1Pool sf df).length = df.countP (fun w =>
          decide (w.num_assignments = globalMinAssignments df)
          && decide (w.num_assignments < w.max_cases)
          && !(decide (w.id ∈ readersProjAssigned sf))) := by
        rw [phase1Pool, ← List.countP_eq_length_filter]
      have e3 : (phase2Pool sf df d1).length = df.countP (fun w =>
          !(decide (w.id ∈ readersProjAssigned sf ++ d1))
          && decide (w.num_assignments < w.max_cases)) := by
        rw [phase2Pool, ← List.countP_eq_length_filter]
      have hsplit := countP_and_split
        (fun w : Worker => !(decide (w.id ∈ readersProjAssigned sf))
          && decide (w.num_assignments < w.max_cases))
        (fun w : Worker => decide (w.id ∈ d1)) df
      have hcq : df.countP (fun w =>
          (!(decide (w.id ∈ readersProjAssigned sf))
            && decide (w.num_assignments < w.max_cases))
          && decide (w.id ∈ d1))
          = df.countP (fun w =>
          decide (w.num_assignments = globalMinAssignments df)
          && decide (w.num_assignments < w.max_cases)
          && !(decide (w.id ∈ readersProjAssigned sf))) := by
        apply List.countP_congr
        intro w hwdf
        constructor
        · intro h
          simp only [Bool.and_eq_true, Bool.not_eq_true', decide_eq_true_eq,
            decide_eq_false_iff_not] at h
          obtain ⟨⟨hA, hlt⟩, hd1m⟩ := h
          have hmem1 : w.id ∈ (phase1Pool sf df).map (fun w => w.id) :=
            hd1perm.subset hd1m
          rcases List.mem_map.mp hmem1 with ⟨w', hw', hid⟩
          have hw'df : w' ∈ df := (List.filter_sublist df).subset hw'
          have hww : w' = w := List.inj_on_of_nodup_map hnd hw'df hwdf hid
          rw [← hww]
          exact (List.mem_filter.mp hw').2
        · intro h
          have hw1 : w ∈ phase1Pool sf df := List.mem_filter.mpr ⟨hwdf, h⟩
          have hwid : w.id ∈ (phase1Pool sf df).map (fun w => w.id) :=
            List.mem_map_of_mem _ hw1
          have hind1 : w.id ∈ d1 := hd1perm.mem_iff.mpr hwid
          have helig := p1_implies_elig sf df w h
          simp only [Bool.and_eq_true, Bool.not_eq_true', decide_eq_true_eq,
            decide_eq_false_iff_not] at helig ⊢
          exact ⟨helig, hind1⟩
      have hp2eq : df.countP (fun w =>
          !(decide (w.id ∈ readersProjAssigned sf ++ d1))
          && decide (w.num_assignments < w.max_cases))
          = df.countP (fun w =>
          (!(decide (w.id ∈ readersProjAssigned sf))
            && decide (w.num_assignments < w.max_cases))
          && !(decide (w.id ∈ d1))) := by
        apply List.countP_congr
        intro w _
        simp only [Bool.and_eq_true, Bool.not_eq_true', decide_eq_true_eq,
          decide_eq_false_iff_not, List.mem_append]
        constructor
        · rintro ⟨hno, hlt⟩
          exact ⟨⟨fun h => hno (Or.inl h), hlt⟩, fun h => hno (Or.inr h)⟩
        · rintro ⟨⟨hA, hlt⟩, hd⟩
          exact ⟨fun h => h.elim hA hd, hlt⟩
      rw [e1, e2, e3, hp2eq, ← hcq]
      omega
    refine ⟨List.nodup_append.mpr ⟨hd1nodup, hd2nodup, hdisj⟩, ?_, ?_, ?_⟩
    · intro x hx
      exact (hEprops x (hmemE x hx)).1
    · intro x hx
      exact (hEprops x (hmemE x hx)).2
    · rw [List.length_append]
      have hl1 := hch1.1
      have hl2 := hch2.1
      have hm1 : ((phase1Pool sf df).map (fun w => w.id)).length
          = (phase1Pool sf df).length := List.length_map _ _
      have hm2 : ((phase2Pool sf df d1).map (fun w => w.id)).length
          = (phase2Pool sf df d1).length := List.length_map _ _
      omega
  · -- no phase 2: the phase-1 pool already satisfies avail
    have hch1 := hc ((phase1Pool sf df).map (fun w => w.id))
      (min (availCaseCoverage sf) ((phase1Pool sf df).length : Int)).toNat
    refine ⟨choice_nodup hch1 hP1nodup, ?_, ?_, ?_⟩
    · intro x hx
      exact (hEprops x
        ((hsubPE.map (fun w => w.id)).subset (choice_mem hch1 x hx))).1
    · intro x hx
      exact (hEprops x
        ((hsubPE.map (fun w => w.id)).subset (choice_mem hch1 x hx))).2
    · have hl1 := hch1.1
      have hm1 : ((phase1Pool sf df).map (fun w => w.id)).length
          = (phase1Pool sf df).length := List.length_map _ _
      have hle : (phase1Pool sf df).length ≤ (eligibleWorkers sf df).length :=
        hsubPE.length_le
      omega

/-- C8 witness: with `avail = 3` and only two eligible workers, the
Allocator (instantiated with a concrete valid chooser) returns exactly those
two workers — partial coverage, no error. -/
theorem C8_witness :
    (dfW8.map (fun w => w.id)).Nodup ∧
    (0 : Int) ≤ availCaseCoverage sfW8 ∧
    (select_readers_without_replacement chooseFirst sfW8 dfW8).length
      = min (availCaseCoverage sfW8).toNat (eligibleWorkers sfW8 dfW8).length ∧
    select_readers_without_replacement chooseFirst sfW8 dfW8 = [1, 2] ∧
    (eligibleWorkers sfW8 dfW8).length = 2 ∧
    availCaseCoverage sfW8 = 3 :=
  ⟨by decide, by decide,
    (C8_thm chooseFirst validChooseFirst sfW8 dfW8 (by decide) (by decide)).2.2.2,
    by decide, by decide, by decide⟩

/-- C2 (amended): phase 1 of the Allocator draws only from eligible workers
whose `num_assignments` equals the minimum `num_assignments` over the
*entire worker table* (ineligible workers included), widening to the
remaining eligible workers only when that pool cannot satisfy `avail`;
in particular, for workers with loads `[0, 0, 2]`, capacities `[5, 5, 5]`
and `avail = 1`, every sampling-without-replacement outcome selects exactly
one of the two load-0 workers and never the load-2 worker. -/
theorem C2_amended_thm (choose : List Nat → Nat → List Nat)
    (hc : ValidChooser choose) :
    (∀ sf df, availCaseCoverage sf ≤ ((phase1Pool sf df).length : Int) →
      ∀ x ∈ select_readers_without_replacement choose sf df,
        x ∈ (phase1Pool sf df).map (fun w => w.id)) ∧
    (select_readers_without_replacement choose sfFair dfFair = [1] ∨
      select_readers_without_replacement choose sfFair dfFair = [2]) := by
  constructor
  · intro sf df h x hx
    rw [select_readers_without_replacement] at hx
    simp only [if_neg (not_lt.mpr h)] at hx
    exact choice_mem (hc _ _) x hx
  · have hsel : select_readers_without_replacement choose sfFair dfFair
        = choose [1, 2] 1 := by
      rw [select_readers_without_replacement]
      simp only [if_neg (by decide :
        ¬ (((phase1Pool sfFair dfFair).length : Int) < availCaseCoverage sfFair))]
      rfl
    rw [hsel]
    rcases hc [1, 2] 1 with ⟨hlen, s, hs, hp⟩
    have hs' : s ∈ ([1, 2] : List Nat).sublists := List.mem_sublists.mpr hs
    have hcases : s = [] ∨ s = [1] ∨ s = [2] ∨ s = [1, 2] := by
      have h2 : ([1, 2] : List Nat).sublists = [[], [1], [2], [1, 2]] := by decide
      rw [h2] at hs'
      simpa using hs'
    have hslen : s.length = 1 := by
      have h1 := hp.length_eq
      simp only [List.length_cons, List.length_nil] at hlen
      omega
    rcases hcases with rfl | rfl | rfl | rfl
    · simp at hslen
    · exact Or.inl (List.perm_singleton.mp hp)
    · exact Or.inr (List.perm_singleton.mp hp)
    · simp at hslen

/-- C2 amended witness: a concrete valid chooser run on the fairness example
selects one of the two load-0 workers. -/
theorem C2_amended_witness :
    select_readers_without_replacement chooseFirst sfFair dfFair = [1] ∨
    select_readers_without_replacement chooseFirst sfFair dfFair = [2] :=
  (C2_amended_thm chooseFirst validChooseFirst).2

theorem checkFirstFail (env : BatchEnv) (sessions : List Session)
    (session_id : Nat) (reader_email : String) (reader_row : Worker)
    (case_coverage : Nat) :
    check_valid_case_assignment env sessions session_id reader_email
        reader_row case_coverage
      = firstFailOutcome (checkResults env sessions session_id reader_email
          reader_row case_coverage) := by
  unfold check_valid_case_assignment checkResults firstFailOutcome
  cases h1 : (sessions.filter (fun s => decide (s.id = session_id))).head? with
  | none => simp [List.find?]
  | some src =>
    by_cases h2 : pyIs src.group env.reader_group_id
    · simp [h2, List.find?]
    · cases h3 : check_valid_reader env.projects reader_email with
      | none => simp [h2, h3, List.find?]
      | some rp =>
        by_cases h4 : src.label ∈ rp.session_labels
        · simp [h2, h3, h4, List.find?]
        · by_cases h5 : reader_row.num_assignments = reader_row.max_cases
          · simp [h2, h3, h4, h5, List.find?]
          · by_cases h6 : (set_session_features_b src.features case_coverage).assigned_count
                = (set_session_features_b src.features case_coverage).case_coverage
            · simp [h2, h3, h4, h5, h6, List.find?]
            · simp [h2, h3, h4, h5, h6, List.find?]

theorem check_true_src (env : BatchEnv) (sessions : List Session)
    (session_id : Nat) (reader_email : String) (reader_row : Worker)
    (case_coverage : Nat)
    (h : (check_valid_case_assignment env sessions session_id reader_email
        reader_row case_coverage).1 = true) :
    ((sessions.filter (fun s => decide (s.id = session_id))).head?).isSome := by
  rw [check_valid_case_assignment] at h
  cases h1 : (sessions.filter (fun s => decide (s.id = session_id))).head? with
  | none => rw [h1] at h; simp at h
  | some src => simp

theorem set_self_of_get? {l : List α} :
    ∀ {i : Nat} {a : α}, l.get? i = some a → l.set i a = l := by
  induction l with
  | nil => intro i a h; simp at h
  | cons hd tl ih =>
    intro i a h
    cases i with
    | zero =>
      simp only [List.get?_cons_zero, Option.some.injEq] at h
      simp [h]
    | succ j =>
      simp only [List.get?_cons_succ] at h
      simp [ih h]

theorem dest_set_map_rid (dest : List Worker) (i : Nat) (w w' : Worker)
    (hget : dest.get? i = some w) (hrid : w'.reader_id = w.reader_id) :
    (dest.set i w').map (fun x => x.reader_id)
      = dest.map (fun x => x.reader_id) := by
  rw [List.map_set, hrid]
  apply set_self_of_get?
  rw [List.get?_map, hget]
  rfl

theorem locateReader_spec (dest : List Worker) (email : String)
    (hne : dest ≠ []) :
    ∃ i rpv w, locateReader dest email = some (i, rpv) ∧
      dest.get? i = some w ∧
      (email ∈ dest.map (fun x => x.reader_id) → rpv.isSome) := by
  rw [locateReader]
  cases hf : dest.findIdx? (fun w => decide (w.reader_id = email)) with
  | some i =>
    have hlt : i < dest.length :=
      (List.findIdx?_eq_some_iff_findIdx_eq.mp hf).1
    have hget : ∃ w, dest.get? i = some w := by
      cases h : dest.get? i with
      | some w => exact ⟨w, rfl⟩
      | none => rw [List.get?_eq_none] at h; omega
    rcases hget with ⟨w, hw⟩
    refine ⟨i, (dest.get? i).map (fun x => x.id), w, rfl, hw, ?_⟩
    intro _
    rw [hw]
    rfl
  | none =>
    have hemp : ¬ dest.isEmpty = true := by
      simpa [List.isEmpty_iff] using hne
    rw [if_neg hemp]
    cases dest with
    | nil => exact absurd rfl hne
    | cons hd tl =>
      refine ⟨0, none, hd, rfl, rfl, ?_⟩
      intro hmem
      exfalso
      rw [List.findIdx?_eq_none_iff] at hf
      rcases List.mem_map.mp hmem with ⟨w, hwdest, hwid⟩
      have := hf w hwdest
      simp [hwid] at this

theorem processBatchRow_step (env : BatchEnv) (exportS : Nat → Nat → Option Nat)
    (cc : Nat) (st : BatchState) (row : BatchRow)
    (herr : st.err = none) (hne : st.dest ≠ []) :
    (processBatchRow env exportS cc st row).err = none ∧
    (processBatchRow env exportS cc st row).outcomes.length
      = st.outcomes.length + 1 ∧
    (processBatchRow env exportS cc st row).dest.map (fun w => w.reader_id)
      = st.dest.map (fun w => w.reader_id) ∧
    (row.reader_email ∈ st.dest.map (fun w => w.reader_id) →
      (processBatchRow env exportS cc st row).readerProjVar.isSome) := by
  obtain ⟨i, rpv, w, hloc, hget, hrpv⟩ :=
    locateReader_spec st.dest row.reader_email hne
  simp only [processBatchRow, herr, Option.isSome_none, Bool.false_eq_true,
    if_false, hloc, hget]
  by_cases hv : (check_valid_case_assignment env st.sessions row.session_id
      row.reader_email w cc).1 = false
  · rw [if_pos hv]
    exact ⟨rfl, by simp, rfl, fun hm => hrpv hm⟩
  · rw [if_neg hv]
    cases he : exportS row.session_id w.id with
    | none => exact ⟨rfl, by simp, rfl, fun hm => hrpv hm⟩
    | some d =>
      have htrue : (check_valid_case_assignment env st.sessions row.session_id
          row.reader_email w cc).1 = true := by
        cases hb : (check_valid_case_assignment env st.sessions row.session_id
            row.reader_email w cc).1
        · exact absurd hb hv
        · rfl
      have hsrc := check_true_src env st.sessions row.session_id
        row.reader_email w cc htrue
      cases hs : (st.sessions.filter (fun s => decide (s.id = row.session_id))).head? with
      | none => rw [hs] at hsrc; simp at hsrc
      | some src =>
        simp only [hs]
        refine ⟨trivial, by simp, ?_, fun hm => hrpv hm⟩
        exact dest_set_map_rid st.dest i w _ hget rfl

theorem foldBatch_props (env : BatchEnv) (exportS : Nat → Nat → Option Nat)
    (cc : Nat) :
    ∀ (rows : List BatchRow) (st : BatchState), st.err = none → st.dest ≠ [] →
      (rows.foldl (processBatchRow env exportS cc) st).err = none ∧
      (rows.foldl (processBatchRow env exportS cc) st).outcomes.length
        = st.outcomes.length + rows.length ∧
      (rows.foldl (processBatchRow env exportS cc) st).dest.map
          (fun w => w.reader_id)
        = st.dest.map (fun w => w.reader_id) := by
  intro rows
  induction rows with
  | nil => intro st h1 _; exact ⟨h1, by simp, rfl⟩
  | cons r rest ih =>
    intro st h1 h2
    simp only [List.foldl_cons]
    obtain ⟨e1, e2, e3, -⟩ := processBatchRow_step env exportS cc st r h1 h2
    have hne' : (processBatchRow env exportS cc st r).dest ≠ [] := by
      intro hnil
      apply h2
      rw [hnil] at e3
      simp only [List.map_nil] at e3
      exact List.map_eq_nil.mp e3.symm
    obtain ⟨f1, f2, f3⟩ := ih (processBatchRow env exportS cc st r) e1 hne'
    refine ⟨f1, ?_, by rw [f3, e3]⟩
    rw [f2, e2]
    simp [List.length_cons]
    omega

theorem foldBatch_last (env : BatchEnv) (exportS : Nat → Nat → Option Nat)
    (cc : Nat) (rows : List BatchRow) (st : BatchState)
    (hne : rows ≠ []) (herr : st.err = none) (hdne : st.dest ≠ [])
    (hlast : (rows.getLast hne).reader_email
      ∈ st.dest.map (fun w => w.reader_id)) :
    (rows.foldl (processBatchRow env exportS cc) st).readerProjVar.isSome := by
  have hdecomp : rows.dropLast ++ [rows.getLast hne] = rows :=
    List.dropLast_append_getLast hne
  rw [← hdecomp, List.foldl_append]
  simp only [List.foldl_cons, List.foldl_nil]
  obtain ⟨m1, -, m3⟩ := foldBatch_props env exportS cc rows.dropLast st herr hdne
  have hdne' : (rows.dropLast.foldl (processBatchRow env exportS cc) st).dest ≠ [] := by
    intro hnil
    apply hdne
    rw [hnil] at m3
    simp only [List.map_nil] at m3
    exact List.map_eq_nil.mp m3.symm
  obtain ⟨-, -, -, h4⟩ := processBatchRow_step env exportS cc
    (rows.dropLast.foldl (processBatchRow env exportS cc) st)
    (rows.getLast hne) m1 hdne'
  apply h4
  rw [m3]
  exact hlast

/-- C3 (amended): the six validation checks run in the spec's order and the
row outcome is the first failing check's message; a failing row does not
abort the batch — its `(False, message)` outcome is recorded, the state is
otherwise untouched, and every row of the batch is still processed; the run
itself exits successfully provided the batch's final row names a reader
present in the worker table (otherwise, as the counterexample shows, the
deferred worker-metadata write can dereference `None` and the run exits 1). -/
theorem C3_amended_thm (env : BatchEnv) (exportS : Nat → Nat → Option Nat)
    (cc : Nat) :
    (∀ (sessions : List Session) (sid : Nat) (email : String) (rrow : Worker),
      check_valid_case_assignment env sessions sid email rrow cc
        = firstFailOutcome (checkResults env sessions sid email rrow cc)) ∧
    (∀ (st : BatchState) (row : BatchRow) (i : Nat) (rpv : Option Nat)
        (w : Worker) (m : String),
      st.err = none →
      locateReader st.dest row.reader_email = some (i, rpv) →
      st.dest.get? i = some w →
      check_valid_case_assignment env st.sessions row.session_id
          row.reader_email w cc = (false, m) →
      processBatchRow env exportS cc st row
        = { st with
            outcomes := st.outcomes ++ [(false, m)]
            readerProjVar := rpv }) ∧
    (∀ (dest0 : List Worker) (sessions0 : List Session) (rows : List BatchRow),
      dest0 ≠ [] →
      (∀ r, rows.getLast? = some r →
        r.reader_email ∈ dest0.map (fun w => w.reader_id)) →
      (distribute_batch_to_readers env exportS cc dest0 sessions0 rows).err
        = none ∧
      (distribute_batch_to_readers env exportS cc dest0 sessions0 rows).outcomes.length
        = rows.length) := by
  refine ⟨fun sessions sid email rrow =>
    checkFirstFail env sessions sid email rrow cc, ?_, ?_⟩
  · intro st row i rpv w m herr hloc hget hchk
    simp only [processBatchRow, herr, Option.isSome_none, Bool.false_eq_true,
      if_false, hloc, hget, hchk, if_true]
  · intro dest0 sessions0 rows hne hlast
    have hlen0 : ¬ dest0.length = 0 := by
      simpa [List.length_eq_zero] using hne
    obtain ⟨m1, m2, m3⟩ := foldBatch_props env exportS cc rows
      ⟨dest0, sessions0, [], none, none, [], [], none⟩ rfl hne
    simp only [distribute_batch_to_readers]
    rw [if_neg hlen0]
    simp only [m1, Option.isSome_none, Bool.false_eq_true, if_false]
    cases hpi : (rows.foldl (processBatchRow env exportS cc)
        ⟨dest0, sessions0, [], none, none, [], [], none⟩).projectInfoVar with
    | none =>
      simp only []
      exact ⟨m1, by rw [m2]; simp⟩
    | some pinfo =>
      rcases rows with - | ⟨r0, rest⟩
      · simp at hpi
      · have hne2 : (r0 :: rest : List BatchRow) ≠ [] := by simp
        have hlast' := hlast ((r0 :: rest).getLast hne2)
          (List.getLast?_eq_getLast _ hne2)
        have hvar := foldBatch_last env exportS cc (r0 :: rest)
          ⟨dest0, sessions0, [], none, none, [], [], none⟩ hne2 rfl hne hlast'
        cases hrv : ((r0 :: rest : List BatchRow).foldl
            (processBatchRow env exportS cc)
            ⟨dest0, sessions0, [], none, none, [], [], none⟩).readerProjVar with
        | none => rw [hrv] at hvar; simp at hvar
        | some pid =>
          exact ⟨rfl, by simpa using m2⟩

/-- C3 amended witness: a batch whose first row fails validation (unknown
reader) and whose final row succeeds: the run finishes without error and
records one `(passed, message)` outcome per row. -/
theorem C3_amended_witness :
    destBatch ≠ [] ∧
    (distribute_batch_to_readers envBatch exportBatch 3 destBatch sessionsBatch
        rowsGhostFirst).err = none ∧
    (distribute_batch_to_readers envBatch exportBatch 3 destBatch sessionsBatch
        rowsGhostFirst).outcomes.length = rowsGhostFirst.length := by
  have h := (C3_amended_thm envBatch exportBatch 3).2.2 destBatch sessionsBatch
    rowsGhostFirst (by decide)
    (by
      intro r hr
      have hr' : (⟨2, "c2", "b@x"⟩ : BatchRow) = r := by
        simpa [rowsGhostFirst] using hr
      subst hr'
      decide)
  exact ⟨by decide, h.1, h.2⟩
